import Mathlib

/-!
Verification of the Fan Club MkIII communication engine
(`master/fc/backend/mkiii/FCCommunicator.py`) against its natural-language
specification.  The Python code is embedded shallowly: every definition below
mirrors a concrete piece of the source, with the source line numbers given in
the doc comments.  Machine integers are modelled by `Int`/`Nat` (the Python
code never overflows), strings by `String`, Python `dict` by association
lists, and fallible operations by `Option`/`Except`.

The per-device record class `FCSlave` is imported by the communicator but its
source file is not part of the sources at hand; its fields and trivial
accessors (`getStatus`/`setStatus`, `getMISO`/`setMISO`, `getDataIndex`/
`setDataIndex`, `getMOSIIndex`/`setMOSIIndex`/`incrementMOSIIndex`,
`getFans`, ...) are modelled from the spec's data model (spec section 3), as
noted on each such definition.  All decision logic verified here lives in
`FCCommunicator.py` itself.
-/

namespace FanClub

/-- Device status enum.  Mirrors the five `s.SS_*` constants of
`fc.standards` used throughout `FCCommunicator.py` (spec section 4.2). -/
inductive SlaveStatus
  | AVAILABLE
  | KNOWN
  | CONNECTED
  | UPDATING
  | DISCONNECTED
deriving DecidableEq, Repr

/-- Modelled from the spec: the device record (spec section 3) held by the
`FCSlave` class, whose source file is not among the given sources (only its
call sites in `FCCommunicator.py` are).  Fields: stable `index`, `mac`,
display `name`, fan count `fans`, `status`, firmware `version`, learned
endpoint (`ip`, `misoP`, `mosiP`), outbound (MOSI) and inbound (MISO)
sequence counters, last applied telemetry `dataIndex`, and the latest
feedback pair (`misoRPM`, `misoDC`).  Duty cycles, floats in the source, are
modelled as rationals; no verified property depends on float rounding. -/
structure Slave where
  index : Nat
  name : String
  mac : String
  fans : Nat
  status : SlaveStatus
  version : String
  ip : Option String
  misoP : Option Int
  mosiP : Option Int
  mosiIndex : Nat
  misoIndex : Nat
  dataIndex : Int
  misoRPM : List Int
  misoDC : List Rat
deriving DecidableEq, Repr

/-- Communicator configuration (spec section 3): immutable after
construction.  `defaultFans` is `self.defaultSlave[ac.SV_maxFans]`, the fan
count given to newly discovered devices (FCCommunicator.py:1141). -/
structure Config where
  passcode : String
  flashFlag : Bool
  targetVersion : String
  maxFans : Nat
  defaultFans : Nat
  maxTimeouts : Int
deriving DecidableEq, Repr

/-- Registry state of the communicator: the ordered slave list `self.slaves`
and the MAC lookup `self.macToIndexMap` (FCCommunicator.py:322). -/
structure CommState where
  slaves : List Slave
  macToIndexMap : List (String × Nat)
deriving DecidableEq, Repr

/-- Helper for `pySplit`: split a character list at every separator
occurrence, keeping empty segments, exactly like Python `str.split(sep)`. -/
def splitOnCharAux (sep : Char) : List Char → List Char → List (List Char)
  | [], acc => [acc.reverse]
  | c :: cs, acc =>
      if c = sep then acc.reverse :: splitOnCharAux sep cs []
      else splitOnCharAux sep cs (c :: acc)

/-- Python `str.split(sep)` for a one-character separator, as used on every
received datagram (`messageReceived.decode('ascii').split("|")`,
FCCommunicator.py:1039, and the CSV fields at 1563/1569). -/
def pySplit (s : String) (sep : Char) : List String :=
  (splitOnCharAux sep s.data []).map String.mk

/-- Decimal digit value of a character, if any. -/
def digitVal? (c : Char) : Option Nat :=
  if '0' ≤ c ∧ c ≤ '9' then some (c.toNat - '0'.toNat) else none

/-- Parse a run of decimal digits (empty runs allowed; `none` on any
non-digit). -/
def parseNatAux : List Char → Nat → Option Nat
  | [], acc => some acc
  | c :: cs, acc =>
      match digitVal? c with
      | some d => parseNatAux cs (acc * 10 + d)
      | none => none

/-- Python `int(str)` on plain decimal tokens with an optional leading minus
sign, the only shapes the protocol produces; any other token raises
`ValueError`, modelled by `none`. -/
def pyToInt? (s : String) : Option Int :=
  match s.data with
  | '-' :: cs => if cs = [] then none else (parseNatAux cs 0).map (fun n => -(n : Int))
  | cs => if cs = [] then none else (parseNatAux cs 0).map (fun n => (n : Int))

/-- `_getSlaveIndexByMAC` (FCCommunicator.py:843-848):
`self.macToIndexMap.get(mac, None)`. -/
def getSlaveIndexByMAC (st : CommState) (mac : String) : Option Nat :=
  st.macToIndexMap.lookup mac

/-- Observable side effects of the embedded routines.  `warn` is `printw`,
`errorLog` stands for the error prints issued by the exception handlers
(`printx`/`printe`), `info` for `printr`, `sendTo` for a datagram sent on the
listener socket back to the sender, `publishSlaves` for `_sendSlaves` (the
registry snapshot pushed through `slavePipeSend`), `startWorker` for
`self.slaves[index].start()`, `pushUpdate` for the state vector put on
`slaveUpdateQueue` inside `setSlaveStatus`, `sendSlave seq payload` for a
`_send` through the device's MOSI socket (datagram `"<seq>|<payload>"`), and
`sendListener` for `_sendToListener`. -/
inductive Effect
  | warn
  | errorLog
  | info
  | sendTo (msg : String)
  | publishSlaves (snap : List (Nat × String × String × SlaveStatus × Nat × String))
  | startWorker (idx : Nat)
  | pushUpdate (idx : Nat)
  | sendSlave (seq : Nat) (payload : String)
  | sendListener (msg : String)
deriving DecidableEq, Repr

/-- `getSlaveStateVector` (FCCommunicator.py:2191-2197):
`[slave.index, slave.name, slave.mac, slave.getStatus(), slave.fans,
slave.version]`. -/
def slaveStateVector (sl : Slave) : Nat × String × String × SlaveStatus × Nat × String :=
  (sl.index, sl.name, sl.mac, sl.status, sl.fans, sl.version)

/-- `_sendSlaves` (FCCommunicator.py:2231-2235): the registry snapshot is the
concatenation (here: list) of every slave's state vector, in registry
order. -/
def slavesSnapshot (st : CommState) : List (Nat × String × String × SlaveStatus × Nat × String) :=
  st.slaves.map slaveStateVector

/-- Modelled from the spec: `FCSlave.setStatus` with optional networking
arguments.  Per spec section 4.1 the listener "atomically transitions it to
KNOWN and records the learned endpoint and version"; `setSlaveStatus`
(FCCommunicator.py:2170-2189) passes `netargs = (ip, misoPort, mosiPort,
version)` through to it. -/
def setStatusNet (sl : Slave) (newStatus : SlaveStatus)
    (netargs : Option (String × Int × Int × String)) : Slave :=
  match netargs with
  | none => { sl with status := newStatus }
  | some (nip, nmiso, nmosi, nver) =>
      { sl with
        status := newStatus
        ip := some nip
        misoP := some nmiso
        mosiP := some nmosi
        version := nver }

/-- `setSlaveStatus` (FCCommunicator.py:2170-2189) acting on the slave at
list position `i`: update the record and put its state vector on
`slaveUpdateQueue`.  The bounded-wait lock acquire is modelled as always
succeeding (the claims under verification presuppose the update happens). -/
def setSlaveStatusAt (st : CommState) (i : Nat) (newStatus : SlaveStatus)
    (netargs : Option (String × Int × Int × String)) : CommState × List Effect :=
  match st.slaves[i]? with
  | none => (st, [])
  | some sl =>
      ({ st with slaves := st.slaves.set i (setStatusNet sl newStatus netargs) },
       [Effect.pushUpdate i])

/-- `add` (FCCommunicator.py:2018-2037): look up the slave at `targetIndex`
(`self.slaves[targetIndex]` raises `IndexError` for an unlisted index,
modelled by `Except`); if its status is `AVAILABLE` set it to `KNOWN` via
`setSlaveStatus`, otherwise do nothing (`pass`). -/
def add (st : CommState) (targetIndex : Nat) : Except Unit (CommState × List Effect) :=
  match st.slaves[targetIndex]? with
  | none => Except.error ()
  | some sl =>
      if sl.status = SlaveStatus.AVAILABLE then
        Except.ok (setSlaveStatusAt st targetIndex SlaveStatus.KNOWN none)
      else
        Except.ok (st, [])

/-- `_send` (FCCommunicator.py:1754-1815): a handshake send resets the MOSI
sequence counter to 0, any other send increments it by one; the datagram put
on the wire is `"<counter>|<message>"` with the counter's updated value
(lines 1769-1777).  The `repeat` argument only duplicates the same datagram
on the wire and is not modelled. -/
def sendSlaveMsg (sl : Slave) (message : String) (hsk : Bool) : Slave × Effect :=
  let c : Nat := if hsk then 0 else sl.mosiIndex + 1
  ({ sl with mosiIndex := c }, Effect.sendSlave c message)

/-- The datagram text produced by `_send`: `"{}|{}".format(index, message)`
(FCCommunicator.py:1777). -/
def datagramOf (seq : Nat) (payload : String) : String :=
  toString seq ++ "|" ++ payload

/-- `_sendToListener` (FCCommunicator.py:1817-1837): with a known IP the
datagram `"<message>|<passcode>"` goes to the device's listener port;
without one, `"J|<passcode>|<mac>|<message>"` is broadcast.  The MOSI
sequence counter is not touched. -/
def sendToListenerMsg (cfg : Config) (sl : Slave) (message : String) : Effect :=
  match sl.ip with
  | some _ => Effect.sendListener (message ++ "|" ++ cfg.passcode)
  | none => Effect.sendListener ("J|" ++ cfg.passcode ++ "|" ++ sl.mac ++ "|" ++ message)

/-! ## Discovery listener (`_listenerRoutine`, FCCommunicator.py:1001-1266)

One iteration of the listener loop, processing a single received datagram.
Python `int()` on the port fields is modelled by `String.toInt?`; list
indexing `messageSplitted[i]` by `List.get? i`, with a missing element
producing the `IndexError` path of the corresponding handler.  Exceptions
raised inside the loop body are caught at FCCommunicator.py:1252-1265 and
at 1179-1182/1242-1245; each such path leaves the state unchanged and emits
the handler's print, so it is modelled by returning the unchanged state
together with the matching `Effect`. -/

/-- The known-MAC branch of an `A|...|N|...` announce datagram
(FCCommunicator.py:1092-1132): with a pending flash and a version mismatch,
send a reboot directive and change nothing; else if the device is
`DISCONNECTED` or `UPDATING`, transition it to `KNOWN` recording the learned
endpoint; all other statuses are ignored (`pass`). -/
def handleKnownMac (cfg : Config) (st : CommState) (index : Nat)
    (misoPort mosiPort : Int) (version senderIP : String) : CommState × List Effect :=
  if cfg.flashFlag = true ∧ version ≠ cfg.targetVersion then
    (st, [Effect.sendTo ("R|" ++ cfg.passcode)])
  else
    match st.slaves[index]? with
    | none => (st, [Effect.warn])
    | some sl =>
        if sl.status = SlaveStatus.DISCONNECTED ∨ sl.status = SlaveStatus.UPDATING then
          setSlaveStatusAt st index SlaveStatus.KNOWN
            (some (senderIP, misoPort, mosiPort, version))
        else
          (st, [])

/-- The new-MAC branch of an `A|...|N|...` announce datagram
(FCCommunicator.py:1134-1167): append a fresh `AVAILABLE` record at index
`len(self.slaves)`, record the MAC-to-index mapping, publish the registry
snapshot (`_sendSlaves`), and start the new device's worker.  The sequence
counters, data index and initial feedback pair of the fresh record are
modelled from the spec (spec sections 3 and 4.5): counters start a new epoch
at 0 and the feedback vectors have the configured max fan count as length. -/
def appendNewSlave (cfg : Config) (st : CommState) (mac : String)
    (misoPort mosiPort : Int) (version senderIP chosenName : String) :
    CommState × List Effect :=
  let index := st.slaves.length
  let newSlave : Slave :=
    { index := index
      name := chosenName
      mac := mac
      fans := cfg.defaultFans
      status := SlaveStatus.AVAILABLE
      version := version
      ip := some senderIP
      misoP := some misoPort
      mosiP := some mosiPort
      mosiIndex := 0
      misoIndex := 0
      dataIndex := 0
      misoRPM := List.replicate cfg.maxFans 0
      misoDC := List.replicate cfg.maxFans 0 }
  let st1 : CommState :=
    { slaves := st.slaves ++ [newSlave]
      macToIndexMap := (mac, index) :: st.macToIndexMap }
  (st1, [Effect.publishSlaves (slavesSnapshot st1), Effect.startWorker index])

/-- The `A` (MkII announce) branch (FCCommunicator.py:1055-1182).  Field
accesses and conversions follow the source order; note the `NameError`
slips in both port guards: when the MISO port is out of range the warning
text at line 1073 references the undefined name `miso` (and the guard has
no raise despite its comment), and when the MOSI port is out of range the
`ValueError` text at line 1080 references the undefined name `mosi`, which
is evaluated before the `ValueError` is constructed.  In both cases a
`NameError` is raised and the generic handler at line 1263 logs it as an
unexpected error — no warning is printed.  Only the wrong-length MAC guard
raises an actual `ValueError`, caught at line 1259 with a warning. -/
def handleAnnounce (cfg : Config) (st : CommState) (parts : List String)
    (senderIP chosenName : String) : CommState × List Effect :=
  match parts.get? 2, parts.get? 3 with
  | some mac, some ty =>
      if ty = "N" then
        match parts.get? 4, parts.get? 5, parts.get? 6 with
        | some s4, some s5, some s6 =>
            match pyToInt? s4 with
            | none => (st, [Effect.warn])
            | some misoPort =>
                match pyToInt? s5 with
                | none => (st, [Effect.warn])
                | some mosiPort =>
                    if misoPort ≤ 0 ∨ misoPort > 65535 then
                      (st, [Effect.errorLog])
                    else if mosiPort ≤ 0 ∨ mosiPort > 65535 then
                      (st, [Effect.errorLog])
                    else if mac.length ≠ 17 then
                      (st, [Effect.warn])
                    else
                      match getSlaveIndexByMAC st mac with
                      | some index =>
                          handleKnownMac cfg st index misoPort mosiPort s6 senderIP
                      | none =>
                          appendNewSlave cfg st mac misoPort mosiPort s6 senderIP chosenName
        | _, _, _ => (st, [Effect.warn])
      else if ty = "E" then
        (st, [Effect.errorLog])
      else
        (st, [Effect.warn])
  | _, _ => (st, [Effect.warn])

/-- The `B` (bootloader announce) branch (FCCommunicator.py:1184-1245):
reply with the launch or flash message, then mark a known MAC `UPDATING`
with the reported bootloader version. -/
def handleBootloader (cfg : Config) (st : CommState) (parts : List String)
    (flashMessage : String) : CommState × List Effect :=
  match parts.get? 3 with
  | some ty =>
      if ty = "N" then
        let replyEff : Effect :=
          if cfg.flashFlag = false then Effect.sendTo ("L|" ++ cfg.passcode)
          else Effect.sendTo flashMessage
        match parts.get? 2 with
        | none => (st, [Effect.warn])
        | some mac =>
            match getSlaveIndexByMAC st mac with
            | some index =>
                let version := (parts.get? 4).getD "Bootloader(?)"
                match st.slaves[index]? with
                | none => (st, [replyEff, Effect.warn])
                | some sl =>
                    let sl1 := setStatusNet { sl with version := version }
                      SlaveStatus.UPDATING none
                    let st1 : CommState := { st with slaves := st.slaves.set index sl1 }
                    (st1, [replyEff, Effect.pushUpdate index])
            | none =>
                (st, [replyEff, Effect.sendTo ("L|" ++ cfg.passcode)])
      else if ty = "E" then
        (st, [Effect.errorLog])
      else
        (st, [])
  | none => (st, [Effect.warn])

/-- One iteration of `_listenerRoutine` (FCCommunicator.py:1012-1265) on a
received datagram `raw` from `senderIP`.  `chosenName` is the random display
name drawn at line 1140 and `flashMessage` the orchestrator's flash reply;
both are inputs of the iteration.  The datagram is split on `"|"`; a
passcode mismatch discards it with a warning (line 1045), an invalid first
character discards it with a warning (line 1246). -/
def listenerIteration (cfg : Config) (st : CommState) (raw : String)
    (senderIP chosenName flashMessage : String) : CommState × List Effect :=
  let parts := pySplit raw '|'
  match parts.get? 1 with
  | none => (st, [Effect.warn])
  | some pc =>
      if pc ≠ cfg.passcode then
        (st, [Effect.warn])
      else
        match ((parts.get? 0).getD "").toList.get? 0 with
        | none => (st, [Effect.warn])
        | some c =>
            if c = 'A' then handleAnnounce cfg st parts senderIP chosenName
            else if c = 'B' then handleBootloader cfg st parts flashMessage
            else (st, [Effect.warn])

/-- Concrete configuration used by the witnesses below. -/
def cfgW : Config :=
  { passcode := "pass"
    flashFlag := false
    targetVersion := "v"
    maxFans := 2
    defaultFans := 2
    maxTimeouts := 5 }

/-- Empty concrete registry used by the witnesses below. -/
def stEmpty : CommState := { slaves := [], macToIndexMap := [] }

/-- Concrete well-formed announce datagram used by the witnesses below. -/
def rawW : String := "A|pass|AB:CD:EF:GH:IJ:KL|N|5000|5001|v1"

/-- A concrete `CONNECTED` device record used by the witnesses below. -/
def slConn : Slave :=
  { index := 0
    name := "nm"
    mac := "AB:CD:EF:GH:IJ:KL"
    fans := 2
    status := SlaveStatus.CONNECTED
    version := "v1"
    ip := some "10.0.0.9"
    misoP := some 5000
    mosiP := some 5001
    mosiIndex := 3
    misoIndex := 4
    dataIndex := 7
    misoRPM := [100, 200]
    misoDC := [1, 0] }

/-- A concrete one-device registry holding `slConn`. -/
def stConn : CommState :=
  { slaves := [slConn], macToIndexMap := [("AB:CD:EF:GH:IJ:KL", 0)] }

/-! ## Outbound sequence counter (`_send`, FCCommunicator.py:1754-1815) -/

/-- A run of consecutive non-handshake `_send` calls on the same device
(one per steady-state exchange), each transmitting one payload. -/
def runSends (sl : Slave) : List String → Slave × List Effect
  | [] => (sl, [])
  | m :: ms =>
      let p := sendSlaveMsg sl m false
      let q := runSends p.1 ms
      (q.1, p.2 :: q.2)

/-! ## Telemetry application (`_slaveRoutine`, FCCommunicator.py:1538-1580)
and the output publisher's feedback vector (`_outputRoutine`,
FCCommunicator.py:960-968) -/

/-- Decimal fraction parser for `pyToFloat?`: digits, optionally split by one
dot. -/
def parseDecimalChars (cs : List Char) : Option Rat :=
  match splitOnCharAux '.' cs [] with
  | [i] =>
      if i = [] then none
      else (parseNatAux i 0).map (fun n => (n : Rat))
  | [i, f] =>
      if i = [] ∧ f = [] then none
      else
        match parseNatAux i 0, parseNatAux f 0 with
        | some ni, some nf => some ((ni : Rat) + (nf : Rat) / ((10 : Rat) ^ f.length))
        | _, _ => none
  | _ => none

/-- Python `float(str)` on plain decimal tokens with an optional leading
minus sign, the duty-cycle shapes the protocol produces (exotic float
syntax such as exponents is out of the modelled domain); a failing token
raises `ValueError`, modelled by `none`.  Values are exact rationals; no
verified property depends on float rounding. -/
def pyToFloat? (s : String) : Option Rat :=
  match s.data with
  | '-' :: cs => (parseDecimalChars cs).map (fun q => -q)
  | cs => parseDecimalChars cs

/-- Casting an RPM integer into the common value type of the emitted
heterogeneous feedback list. -/
def ratOfInt (n : Int) : Rat := (n : Rat)

/-- Parse every token of a list, failing if any token fails (the `ValueError`
of the first bad token aborts the fill loop). -/
def parseAll (parse : String → Option α) : List String → Option (List α)
  | [] => some []
  | t :: ts =>
      match parse t with
      | none => none
      | some v => (parseAll parse ts).map (fun vs => v :: vs)

/-- The telemetry CSV fill loop (FCCommunicator.py:1558-1572): pre-allocate
a zero vector of length `maxFans` (`np.zeros(self.maxFans)`), fill positions
`0..min(tokens, maxFans)-1` with the parsed tokens; a token that fails to
parse raises `ValueError`, modelled by `none` (the partially filled array is
then discarded). -/
def parseVector (maxFans : Nat) (parse : String → Option α) (zero : α)
    (csv : String) : Option (List α) :=
  match parseAll parse ((pySplit csv ',').take maxFans) with
  | none => none
  | some vs => some (vs ++ List.replicate (maxFans - vs.length) zero)

/-- The telemetry branch of the CONNECTED steady-state cycle
(FCCommunicator.py:1538-1580): if the carried data index exceeds the stored
one, store it (`slave.setDataIndex`, line 1551) and then parse and store
the feedback pair (`slave.setMISO`, line 1575); otherwise do nothing.  A
CSV parse failure raises `ValueError` after the data index was already
updated, so the feedback pair is left untouched in that case. -/
def applyTelemetry (maxFans : Nat) (sl : Slave) (dIdx : Int)
    (rpmCsv dcCsv : String) : Slave :=
  if dIdx > sl.dataIndex then
    let sl1 := { sl with dataIndex := dIdx }
    match parseVector maxFans pyToInt? 0 rpmCsv,
        parseVector maxFans pyToFloat? 0 dcCsv with
    | some rpms, some dcs => { sl1 with misoRPM := rpms, misoDC := dcs }
    | _, _ => sl1
  else sl

/-- The feedback vector built by `_outputRoutine` (FCCommunicator.py:960-968):
`F_r` and `F_d` are accumulated per slave over the registry in order, then
the concatenation `F_r + F_d` is emitted on `feedbackPipeSend`.  RPM entries
(integers in the source) are cast into the common value type of the emitted
heterogeneous Python list. -/
def outputFeedback (slaves : List Slave) : List Rat :=
  let p := slaves.foldl
    (fun (p : List Rat × List Rat) sl =>
      (p.1 ++ sl.misoRPM.map ratOfInt, p.2 ++ sl.misoDC))
    ([], [])
  p.1 ++ p.2

/-! ## CONNECTED steady-state cycle (`_slaveRoutine`, FCCommunicator.py:1458-1685) -/

/-- A fetched mailbox command (`slave.getMOSI()`, FCCommunicator.py:1481),
in the four shapes dispatched at lines 1489-1515.  Numeric payloads are
modelled by their formatted text. -/
inductive MOSICmd
  | dc (dcVal : String) (selection : String)
  | dcMulti (payload : String)
  | disconnectCmd
  | rebootCmd
deriving DecidableEq, Repr

/-- A reply as returned by `_receive` for the protocol's valid inbound
messages (spec section 6): a five-field telemetry record (whose data index
`_receive` already converted to an integer, FCCommunicator.py:1911), a
tag-only message, or an error report. -/
inductive Reply
  | T (dIdx : Int) (rpmCsv dcCsv : String)
  | tagOnly (t : String)
  | E (txt : String)
deriving DecidableEq, Repr

/-- The per-worker loop state of `_slaveRoutine`: the slave record plus the
local variables `timeouts`, `totalTimeouts`, `tryBuffer` and `message` (the
last sent payload, resent when the mailbox is empty), set up at
FCCommunicator.py:1336-1344. -/
structure WorkerState where
  slave : Slave
  timeouts : Int
  totalTimeouts : Int
  tryBuffer : Bool
  message : String
deriving DecidableEq, Repr

/-- The worker state right after a successful handshake: counters zeroed,
`tryBuffer` re-armed (FCCommunicator.py:1339-1342, 1385), last message the
initial `"P"` ping (line 1341). -/
def initWorker (sl : Slave) : WorkerState :=
  { slave := sl, timeouts := 0, totalTimeouts := 0, tryBuffer := true, message := "P" }

/-- One CONNECTED steady-state cycle (FCCommunicator.py:1458-1685) given the
mailbox fetch result and the (possibly absent) reply: check the firmware
flash flag (reboot-and-disconnect on mismatch, lines 1469-1478); send the
fetched command or resend the previous message (lines 1481-1515); then
interpret the reply (lines 1531-1622) or run the timeout ladder (lines
1624-1681): increment the missed-reply counter, probe `"Q"` one before the
limit, probe `"Y"` once at the limit while disarming `tryBuffer`, and past
that declare the device DISCONNECTED after one `"X"` to its listener. -/
def connectedCycle (cfg : Config) (w : WorkerState) (cmd : Option MOSICmd)
    (reply : Option Reply) : WorkerState × List Effect :=
  if cfg.flashFlag = true ∧ w.slave.version ≠ cfg.targetVersion then
    let p := sendSlaveMsg w.slave "R" false
    ({ w with slave := { p.1 with status := SlaveStatus.DISCONNECTED } },
     [p.2, Effect.pushUpdate w.slave.index])
  else
    let s3 : Slave × String × List Effect :=
      match cmd with
      | none =>
          let p := sendSlaveMsg w.slave w.message false
          (p.1, w.message, [p.2])
      | some (MOSICmd.dc dcVal sel) =>
          let m := "S|D:" ++ dcVal ++ ":" ++ sel
          let p := sendSlaveMsg w.slave m false
          (p.1, m, [p.2])
      | some (MOSICmd.dcMulti payload) =>
          let m := "S|F:" ++ payload
          let p := sendSlaveMsg w.slave m false
          (p.1, m, [p.2])
      | some MOSICmd.disconnectCmd =>
          (w.slave, w.message, [sendToListenerMsg cfg w.slave "X"])
      | some MOSICmd.rebootCmd =>
          (w.slave, w.message, [sendToListenerMsg cfg w.slave "R"])
    let sl1 := s3.1
    let msg1 := s3.2.1
    let sendEffs := s3.2.2
    match reply with
    | some r =>
        match r with
        | Reply.T dIdx rpmCsv dcCsv =>
            ({ w with
                slave := applyTelemetry cfg.maxFans sl1 dIdx rpmCsv dcCsv
                timeouts := 0
                message := msg1 }, sendEffs)
        | Reply.tagOnly t =>
            if t = "I" then
              ({ w with slave := { sl1 with misoIndex := 0 }, timeouts := 0, message := msg1 },
               sendEffs ++ [Effect.info])
            else if t = "P" then
              let p := sendSlaveMsg sl1 "P" false
              ({ w with slave := p.1, timeouts := 0, message := msg1 }, sendEffs ++ [p.2])
            else if t = "Y" ∨ t = "M" ∨ t = "H" ∨ t = "Q" then
              ({ w with slave := sl1, timeouts := 0, message := msg1 }, sendEffs)
            else
              ({ w with slave := sl1, timeouts := 0, message := msg1 },
               sendEffs ++ [Effect.warn])
        | Reply.E _ =>
            ({ w with slave := sl1, timeouts := 0, message := msg1 },
             sendEffs ++ [Effect.errorLog])
    | none =>
        if w.timeouts + 1 = cfg.maxTimeouts - 1 then
          let p := sendSlaveMsg sl1 "Q" false
          ({ w with
              slave := p.1
              timeouts := w.timeouts + 1
              totalTimeouts := w.totalTimeouts + 1
              message := msg1 }, sendEffs ++ [p.2])
        else if w.timeouts + 1 < cfg.maxTimeouts then
          ({ w with
              slave := sl1
              timeouts := w.timeouts + 1
              totalTimeouts := w.totalTimeouts + 1
              message := msg1 }, sendEffs)
        else if w.tryBuffer = true then
          let p := sendSlaveMsg sl1 "Y" false
          ({ w with
              slave := p.1
              timeouts := w.timeouts + 1
              totalTimeouts := w.totalTimeouts + 1
              tryBuffer := false
              message := msg1 }, sendEffs ++ [p.2])
        else
          ({ w with
              slave := { sl1 with status := SlaveStatus.DISCONNECTED }
              timeouts := 0
              totalTimeouts := 0
              message := msg1 },
           sendEffs ++ [Effect.warn, sendToListenerMsg cfg sl1 "X",
             Effect.pushUpdate sl1.index])

/-- Iterate `connectedCycle` over consecutive cycles with an empty mailbox
and no reply at all (total packet loss), collecting effects. -/
def runSilent (cfg : Config) (w : WorkerState) : Nat → WorkerState × List Effect
  | 0 => (w, [])
  | n + 1 =>
      let p := runSilent cfg w n
      let q := connectedCycle cfg p.1 none none
      (q.1, p.2 ++ q.2)

/-- Number of `_send` datagrams with the given payload in an effect list. -/
def countPayload (p : String) (effs : List Effect) : Nat :=
  (effs.filter (fun e =>
    match e with
    | Effect.sendSlave _ pl => decide (pl = p)
    | _ => false)).length

/-- The `_sendToListener` datagrams in an effect list (in a silent CONNECTED
run, every one of these is the `"X"` disconnect directive). -/
def listenerSends (effs : List Effect) : List Effect :=
  effs.filter (fun e =>
    match e with
    | Effect.sendListener _ => true
    | _ => false)

/-- Concrete configuration with max-timeout count 2 for the C3 theorems. -/
def cfgC3 : Config :=
  { passcode := "pass"
    flashFlag := false
    targetVersion := "v"
    maxFans := 2
    defaultFans := 2
    maxTimeouts := 2 }

/-! ## KNOWN-state handshake (`_slaveRoutine`, FCCommunicator.py:1360-1456) -/

/-- Result of the handshake phase: handshake acknowledged (`"H"` reply,
device CONNECTED), retry budget exhausted (device DISCONNECTED), or the
supplied receive outcomes ran out while the loop was still going. -/
inductive HskOutcome
  | connected
  | disconnected
  | outOfInput
deriving DecidableEq, Repr

/-- Observable events of the handshake phase: a descriptor send
(`_send(MHSK, ...)`), the explicit disconnect send (`_send("X", slave, 2)`),
a device-socket reset (lines 1417-1454), and the two status updates. -/
inductive HskEffect
  | sendHSK
  | sendX
  | reset
  | statusConnected
  | statusDisconnected
deriving DecidableEq, Repr

/-- The handshake retry counter, hard-coded `tries = 2` at
FCCommunicator.py:1371. -/
def HSK_TRIES : Nat := 2

/-- The KNOWN-state handshake reply loop (FCCommunicator.py:1372-1456).
Each element of `replies` is one `_receive` outcome: `some tag` a reply with
that keyword, `none` a timeout.  An `"H"` reply connects and breaks; a `"K"`
(acknowledged, still working) reply just continues; on anything else, while
`tries > 0` another descriptor is sent, `tries` decremented, and — the
`if/elif` chain having fallen through without `break`/`continue` — the
device sockets are reset and `failedHSKs` zeroed (lines 1417-1456); with
`tries` exhausted and `failedHSKs == 0` the worker sends `"X"` and marks the
device DISCONNECTED.  `failedHSKs` is initialized to 0 (line 1344) and never
incremented, so the bare-reset `else` branch (line 1412) is unreachable in
runs starting from 0.  `outOfInput` means the loop would keep running past
the supplied replies. -/
def hskLoop (tries failedHSKs : Nat) : List (Option String) → HskOutcome × List HskEffect
  | [] => (HskOutcome.outOfInput, [])
  | r :: rest =>
      if r = some "H" then
        (HskOutcome.connected, [HskEffect.statusConnected])
      else if r = some "K" then
        hskLoop tries failedHSKs rest
      else if 0 < tries then
        let p := hskLoop (tries - 1) 0 rest
        (p.1, HskEffect.sendHSK :: HskEffect.reset :: p.2)
      else if failedHSKs = 0 then
        (HskOutcome.disconnected, [HskEffect.sendX, HskEffect.statusDisconnected])
      else
        let p := hskLoop tries 0 rest
        (p.1, HskEffect.reset :: p.2)

/-- The whole handshake phase for a KNOWN device: one initial descriptor
send (FCCommunicator.py:1366) followed by the reply loop with the fixed
retry budget. -/
def hskPhase (replies : List (Option String)) : HskOutcome × List HskEffect :=
  let p := hskLoop HSK_TRIES 0 replies
  (p.1, HskEffect.sendHSK :: p.2)

/-- Occurrences of a given handshake event in an effect list. -/
def countHskEffect (e0 : HskEffect) (effs : List HskEffect) : Nat :=
  (effs.filter (fun e => decide (e = e0))).length

/-! ## Full-vector duty-cycle dispatch (`__handle_input_CTL_DC_VECTOR`,
FCCommunicator.py:913-940) -/

/-- The slave loop of `__handle_input_CTL_DC_VECTOR`
(FCCommunicator.py:920-940).  `C` is the control vector, `i` the buffer
cursor (starting at the vector's data offset `s.CTL_I_VECTOR_DC_OFFSET`) and
`index` the registry position.  For a CONNECTED slave, the slice
`C[i : i + slaveFans]` is zero-padded to `maxFans` and enqueued via
`setMOSI` — returned here as a `(registry position, padded values)` pair,
the formatted template string being a presentation of exactly these values.
After each iteration `index` is incremented and then the cursor advances by
`self.slaves[index-1].getFans()` — the fan count of the device just
processed (so alignment is kept; after `index += 1` the `index > 0` guard
is always true and its `else self.maxFans` arm is dead) — whether or not
that device was CONNECTED.  The loop stops when the cursor reaches the end
of `C` or the registry is exhausted. -/
def dcDispatch (maxFans : Nat) (C : List Rat) :
    List Slave → Nat → Nat → List (Nat × List Rat)
  | [], _, _ => []
  | sl :: rest, i, index =>
      if i < C.length then
        (if sl.status = SlaveStatus.CONNECTED then
          [(index, ((C.drop i).take sl.fans)
            ++ List.replicate (maxFans - ((C.drop i).take sl.fans).length) 0)]
         else [])
        ++ dcDispatch maxFans C rest (i + sl.fans) (index + 1)
      else []

/-- Entry point of the dispatch loop: cursor at the vector's data offset,
registry position 0 (FCCommunicator.py:920-921). -/
def handleDCVector (maxFans : Nat) (slaves : List Slave) (C : List Rat)
    (dcOffset : Nat) : List (Nat × List Rat) :=
  dcDispatch maxFans C slaves dcOffset 0

/-- Sum of the actual fan counts of the devices at registry positions
`0 .. k-1`. -/
def prefixFans (slaves : List Slave) (k : Nat) : Nat :=
  ((slaves.take k).map (fun sl => sl.fans)).sum

/-- A concrete CONNECTED device with 2 fans for the C9 witness. -/
def slHet0 : Slave :=
  { slConn with index := 0, mac := "AA:AA:AA:AA:AA:A0", fans := 2 }

/-- A concrete CONNECTED device with 1 fan for the C9 witness. -/
def slHet1 : Slave :=
  { slConn with index := 1, mac := "AA:AA:AA:AA:AA:A1", fans := 1 }

/-- A concrete two-device registry with heterogeneous fan counts. -/
def stHet : CommState :=
  { slaves := [slHet0, slHet1]
    macToIndexMap := [("AA:AA:AA:AA:AA:A0", 0), ("AA:AA:AA:AA:AA:A1", 1)] }

/-! ## Theorems -/

/-- Claim C1: for every discovery device-announce datagram whose passcode
matches the configuration and whose MAC is not yet in the registry (with
valid ports and a 17-character MAC), processing it appends exactly one new
record with status `AVAILABLE` whose index equals the registry size before
the append, records the MAC-to-index mapping for that MAC, publishes a
registry snapshot, and starts the device's worker; no existing record is
modified. -/
theorem C1_discovery_appends_available
    (cfg : Config) (st : CommState) (raw senderIP chosenName flashMessage : String)
    (p0 mac s4 s5 ver : String) (rest : List String) (misoPort mosiPort : Int)
    (hsplit : pySplit raw '|' = p0 :: cfg.passcode :: mac :: "N" :: s4 :: s5 :: ver :: rest)
    (hp0 : p0.toList.get? 0 = some 'A')
    (h4 : pyToInt? s4 = some misoPort) (h5 : pyToInt? s5 = some mosiPort)
    (hmisoLo : 0 < misoPort) (hmisoHi : misoPort ≤ 65535)
    (hmosiLo : 0 < mosiPort) (hmosiHi : mosiPort ≤ 65535)
    (hmac : mac.length = 17)
    (hnew : getSlaveIndexByMAC st mac = none) :
    (listenerIteration cfg st raw senderIP chosenName flashMessage).1.slaves.length
        = st.slaves.length + 1 ∧
    (∀ i, i < st.slaves.length →
      (listenerIteration cfg st raw senderIP chosenName flashMessage).1.slaves[i]?
        = st.slaves[i]?) ∧
    ((listenerIteration cfg st raw senderIP chosenName flashMessage).1.slaves[st.slaves.length]?).map
        Slave.status = some SlaveStatus.AVAILABLE ∧
    ((listenerIteration cfg st raw senderIP chosenName flashMessage).1.slaves[st.slaves.length]?).map
        Slave.index = some st.slaves.length ∧
    getSlaveIndexByMAC (listenerIteration cfg st raw senderIP chosenName flashMessage).1 mac
        = some st.slaves.length ∧
    (listenerIteration cfg st raw senderIP chosenName flashMessage).2
        = [Effect.publishSlaves
            (slavesSnapshot (listenerIteration cfg st raw senderIP chosenName flashMessage).1),
           Effect.startWorker st.slaves.length] := by
  have hres : listenerIteration cfg st raw senderIP chosenName flashMessage
      = appendNewSlave cfg st mac misoPort mosiPort ver senderIP chosenName := by
    unfold listenerIteration handleAnnounce
    rw [hsplit]
    simp only [List.get?, Option.getD_some, hp0, h4, h5, hnew]
    have h1 : ¬(misoPort ≤ 0 ∨ misoPort > 65535) := by omega
    have h2 : ¬(mosiPort ≤ 0 ∨ mosiPort > 65535) := by omega
    simp [h1, h2, hmac]
  rw [hres]
  unfold appendNewSlave
  refine ⟨by simp, ?_, ?_, ?_, ?_, rfl⟩
  · intro i hi
    simpa using (List.getElem?_append_left hi : (st.slaves ++ _)[i]? = st.slaves[i]?)
  · simp [List.getElem?_concat_length]
  · simp [List.getElem?_concat_length]
  · simp [getSlaveIndexByMAC, List.lookup]

/-- Witness for C1 at a concrete announce datagram and the empty registry. -/
theorem C1_discovery_appends_available_witness :
    ("AB:CD:EF:GH:IJ:KL" : String).length = 17 ∧
    ((listenerIteration cfgW stEmpty rawW "10.0.0.9" "nm" "FM").1.slaves[0]?).map Slave.status
      = some SlaveStatus.AVAILABLE :=
  ⟨by decide,
    (C1_discovery_appends_available cfgW stEmpty rawW "10.0.0.9" "nm" "FM"
      "A" "AB:CD:EF:GH:IJ:KL" "5000" "5001" "v1" [] 5000 5001 (by rfl) (by rfl) (by rfl)
      (by rfl) (by decide) (by decide) (by decide) (by decide) (by rfl) (by rfl)).2.2.1⟩

/-- Claim C6: for every discovery device-announce datagram whose MAC is
already registered with status `CONNECTED`, processing the datagram leaves
that device's record entirely unchanged — indeed the whole registry state is
unchanged — so its index, status, endpoint and version are the same after
as before; and a registered device's record changes under an announce
datagram only if its status was `DISCONNECTED` or `UPDATING`, in which case
it becomes `KNOWN` with the learned endpoint and version. -/
theorem C6_connected_untouched_by_discovery
    (cfg : Config) (st : CommState) (raw senderIP chosenName flashMessage : String)
    (p0 mac s4 s5 ver : String) (rest : List String) (misoPort mosiPort : Int)
    (idx : Nat) (sl : Slave)
    (hsplit : pySplit raw '|' = p0 :: cfg.passcode :: mac :: "N" :: s4 :: s5 :: ver :: rest)
    (hp0 : p0.toList.get? 0 = some 'A')
    (h4 : pyToInt? s4 = some misoPort) (h5 : pyToInt? s5 = some mosiPort)
    (hmisoLo : 0 < misoPort) (hmisoHi : misoPort ≤ 65535)
    (hmosiLo : 0 < mosiPort) (hmosiHi : mosiPort ≤ 65535)
    (hmac : mac.length = 17)
    (hidx : getSlaveIndexByMAC st mac = some idx)
    (hsl : st.slaves[idx]? = some sl) :
    (sl.status = SlaveStatus.CONNECTED →
      (listenerIteration cfg st raw senderIP chosenName flashMessage).1 = st) ∧
    ((listenerIteration cfg st raw senderIP chosenName flashMessage).1 ≠ st →
      (sl.status = SlaveStatus.DISCONNECTED ∨ sl.status = SlaveStatus.UPDATING) ∧
      (listenerIteration cfg st raw senderIP chosenName flashMessage).1.slaves[idx]?
        = some (setStatusNet sl SlaveStatus.KNOWN
            (some (senderIP, misoPort, mosiPort, ver)))) := by
  have hlt : idx < st.slaves.length := by
    rcases List.getElem?_eq_some.mp hsl with ⟨h, _⟩
    exact h
  have hres : listenerIteration cfg st raw senderIP chosenName flashMessage
      = handleKnownMac cfg st idx misoPort mosiPort ver senderIP := by
    unfold listenerIteration handleAnnounce
    rw [hsplit]
    simp only [List.get?, Option.getD_some, hp0, h4, h5, hidx]
    have h1 : ¬(misoPort ≤ 0 ∨ misoPort > 65535) := by omega
    have h2 : ¬(mosiPort ≤ 0 ∨ mosiPort > 65535) := by omega
    simp [h1, h2, hmac]
  rw [hres]
  unfold handleKnownMac setSlaveStatusAt
  by_cases hf : cfg.flashFlag = true ∧ ver ≠ cfg.targetVersion
  · simp [hf]
  · rw [if_neg hf]
    simp only [hsl]
    by_cases hdu : sl.status = SlaveStatus.DISCONNECTED ∨ sl.status = SlaveStatus.UPDATING
    · rw [if_pos hdu]
      refine ⟨fun hc => ?_, fun _ => ⟨hdu, ?_⟩⟩
      · rcases hdu with h | h <;> rw [hc] at h <;> exact absurd h (by simp)
      · exact List.getElem?_set_eq_of_lt _ hlt
    · rw [if_neg hdu]
      exact ⟨fun _ => rfl, fun hne => absurd rfl hne⟩

/-- Witness for C6: a registered `CONNECTED` device re-announcing itself
leaves the registry state unchanged. -/
theorem C6_connected_untouched_by_discovery_witness :
    stConn.slaves[0]? = some slConn ∧
    (slConn.status = SlaveStatus.CONNECTED →
      (listenerIteration cfgW stConn rawW "10.0.0.9" "nm" "FM").1 = stConn) :=
  ⟨by rfl,
    (C6_connected_untouched_by_discovery cfgW stConn rawW "10.0.0.9" "nm" "FM"
      "A" "AB:CD:EF:GH:IJ:KL" "5000" "5001" "v1" [] 5000 5001 0 slConn
      (by rfl) (by rfl) (by rfl) (by rfl) (by decide) (by decide) (by decide) (by decide)
      (by decide) (by rfl) (by rfl)).1⟩

/-- Claim C8 (code bug at both port guards): a device-announce datagram with
matching passcode and an out-of-range port is discarded with no state
change, but NOT with a warning.  The MISO-port guard (FCCommunicator.py:
1070-1074) only formats a warning text referencing the undefined name
`miso` (the variable is `misoPort`) and, despite its comment, has no raise;
the MOSI-port guard (lines 1076-1080) does raise, but its `ValueError` text
references the undefined name `mosi`, evaluated before the `ValueError` is
constructed.  Either way a `NameError` is raised, which the `(ValueError,
IndexError)` handler at line 1259 does not catch; the generic handler at
line 1263 logs it as an unexpected error, with no warning.  Only the
wrong-length MAC case behaves as claimed: a real `ValueError` is raised and
the handler at line 1259 prints a warning.  In all cases the message is
discarded, no registry record is created or modified, and the loop
continues. -/
theorem C8_invalid_port_or_mac_discarded :
    listenerIteration cfgW stEmpty "A|pass|AB:CD:EF:GH:IJ:KL|N|0|5001|v1" "10.0.0.9" "nm" "FM"
      = (stEmpty, [Effect.errorLog]) ∧
    listenerIteration cfgW stEmpty "A|pass|AB:CD:EF:GH:IJ:KL|N|70000|5001|v1" "10.0.0.9" "nm" "FM"
      = (stEmpty, [Effect.errorLog]) ∧
    listenerIteration cfgW stEmpty "A|pass|AB:CD:EF:GH:IJ:KL|N|5000|0|v1" "10.0.0.9" "nm" "FM"
      = (stEmpty, [Effect.errorLog]) ∧
    listenerIteration cfgW stEmpty "A|pass|AB:CD:EF:GH:IJ:KL|N|5000|70000|v1" "10.0.0.9" "nm" "FM"
      = (stEmpty, [Effect.errorLog]) ∧
    listenerIteration cfgW stEmpty "A|pass|SHORT:MAC|N|5000|5001|v1" "10.0.0.9" "nm" "FM"
      = (stEmpty, [Effect.warn]) :=
  ⟨by decide, by decide, by decide, by decide, by decide⟩

/-- Claim C10: for every registered device whose status is not `AVAILABLE`,
calling `add` on its index raises no error and leaves the registry and the
device's record completely unchanged; and `add` transitions a device to
`KNOWN` exactly when its status is `AVAILABLE`. -/
theorem C10_add_transitions_iff_available
    (st : CommState) (i : Nat) (sl : Slave) (hsl : st.slaves[i]? = some sl) :
    (sl.status ≠ SlaveStatus.AVAILABLE → add st i = Except.ok (st, [])) ∧
    (sl.status = SlaveStatus.AVAILABLE →
      add st i = Except.ok
        ({ st with slaves := st.slaves.set i { sl with status := SlaveStatus.KNOWN } },
         [Effect.pushUpdate i])) := by
  unfold add setSlaveStatusAt
  simp only [hsl]
  refine ⟨fun h => by rw [if_neg h], fun h => by rw [if_pos h]; rfl⟩

/-- Witness for C10: `add` on the `CONNECTED` device of the concrete
registry `stConn` succeeds and changes nothing. -/
theorem C10_add_transitions_iff_available_witness :
    slConn.status ≠ SlaveStatus.AVAILABLE ∧ add stConn 0 = Except.ok (stConn, []) :=
  ⟨by decide,
    (C10_add_transitions_iff_available stConn 0 slConn (by rfl)).1 (by decide)⟩

/-- The counter after a run of non-handshake sends advances by exactly the
number of sends. -/
theorem runSends_mosiIndex (sl : Slave) (ms : List String) :
    (runSends sl ms).1.mosiIndex = sl.mosiIndex + ms.length := by
  induction ms generalizing sl with
  | nil => simp [runSends]
  | cons m ms ih => simp [runSends, sendSlaveMsg, ih]; omega

/-- The datagram at position `k` of a run of non-handshake sends carries
sequence number `initial counter + k + 1`. -/
theorem runSends_getElem (sl : Slave) (ms : List String) (k : Nat) :
    ((runSends sl ms).2)[k]?
      = (ms[k]?).map (fun m => Effect.sendSlave (sl.mosiIndex + k + 1) m) := by
  induction ms generalizing sl k with
  | nil => simp [runSends]
  | cons m ms ih =>
      cases k with
      | zero => simp [runSends, sendSlaveMsg]
      | succ k =>
          simp only [runSends, sendSlaveMsg, Bool.false_eq_true, if_false,
            List.getElem?_cons_succ]
          rw [ih]
          have h : sl.mosiIndex + 1 + k + 1 = sl.mosiIndex + (k + 1) + 1 := by omega
          rw [h]

/-- Claim C7: for every per-device send operation, a handshake resets the
outbound (MOSI) sequence counter to 0 and any other message increments it by
exactly one; the transmitted datagram is prefixed with the counter's updated
value; hence over a run of non-handshake sends (a connection epoch) the
counter advances by one per send and the transmitted sequence numbers are
strictly increasing. -/
theorem C7_mosi_sequence_monotone (sl : Slave) (m : String) (ms : List String) :
    (sendSlaveMsg sl m true).1.mosiIndex = 0 ∧
    (sendSlaveMsg sl m false).1.mosiIndex = sl.mosiIndex + 1 ∧
    (∀ hsk : Bool, (sendSlaveMsg sl m hsk).2
        = Effect.sendSlave ((sendSlaveMsg sl m hsk).1.mosiIndex) m) ∧
    (runSends sl ms).1.mosiIndex = sl.mosiIndex + ms.length ∧
    (∀ (i j si sj : Nat) (mi mj : String), ((runSends sl ms).2)[i]? = some (Effect.sendSlave si mi) →
      ((runSends sl ms).2)[j]? = some (Effect.sendSlave sj mj) → i < j → si < sj) := by
  refine ⟨rfl, rfl, fun hsk => by cases hsk <;> rfl, runSends_mosiIndex sl ms, ?_⟩
  intro i j si sj mi mj hi hj hij
  rw [runSends_getElem] at hi hj
  cases hmi : ms[i]? with
  | none => rw [hmi] at hi; simp at hi
  | some x =>
      cases hmj : ms[j]? with
      | none => rw [hmj] at hj; simp at hj
      | some y =>
          rw [hmi] at hi
          rw [hmj] at hj
          simp at hi hj
          omega

/-- Witness for C7: two consecutive non-handshake sends on the concrete
device `slConn` (counter 3) transmit sequence numbers 4 then 5. -/
theorem C7_mosi_sequence_monotone_witness :
    ((runSends slConn ["P", "Q"]).2)[0]? = some (Effect.sendSlave 4 "P") ∧
    ((runSends slConn ["P", "Q"]).2)[1]? = some (Effect.sendSlave 5 "Q") ∧
    (4 : Nat) < 5 :=
  ⟨by decide, by decide,
    (C7_mosi_sequence_monotone slConn "P" ["P", "Q"]).2.2.2.2 0 1 4 5 "P" "Q"
      (by decide) (by decide) (by decide)⟩

/-- `parseAll` preserves length. -/
theorem parseAll_length {α : Type} (parse : String → Option α) :
    ∀ (l : List String) (vs : List α), parseAll parse l = some vs → vs.length = l.length := by
  intro l
  induction l with
  | nil => intro vs h; simp [parseAll] at h; simp [h.symm]
  | cons t ts ih =>
      intro vs h
      unfold parseAll at h
      cases hp : parse t with
      | none => rw [hp] at h; simp at h
      | some v =>
          rw [hp] at h
          cases hm : parseAll parse ts with
          | none => rw [hm] at h; simp at h
          | some ws =>
              rw [hm] at h
              simp at h
              rw [h.symm]
              simp [ih ws hm]

/-- A successfully parsed telemetry vector always has length `maxFans`. -/
theorem parseVector_length {α : Type} (maxFans : Nat) (parse : String → Option α)
    (zero : α) (csv : String) (vs : List α)
    (h : parseVector maxFans parse zero csv = some vs) : vs.length = maxFans := by
  unfold parseVector at h
  cases hm : parseAll parse ((pySplit csv ',').take maxFans) with
  | none => rw [hm] at h; simp at h
  | some ws =>
      rw [hm] at h
      simp at h
      have hw : ws.length = ((pySplit csv ',').take maxFans).length :=
        parseAll_length parse _ ws hm
      have hle : ws.length ≤ maxFans := by
        rw [hw]; simp [List.length_take]
      rw [h.symm]
      simp [List.length_replicate]
      omega

/-- The paired fold of `_outputRoutine` appends each slave's vectors to the
running accumulators. -/
theorem outputFold_eq (slaves : List Slave) (a b : List Rat) :
    slaves.foldl
      (fun (p : List Rat × List Rat) sl =>
        (p.1 ++ sl.misoRPM.map ratOfInt, p.2 ++ sl.misoDC))
      (a, b)
    = (a ++ (slaves.map (fun sl => sl.misoRPM.map ratOfInt)).flatten,
       b ++ (slaves.map (fun sl => sl.misoDC)).flatten) := by
  induction slaves generalizing a b with
  | nil => simp
  | cons sl slaves ih => simp [ih, List.append_assoc]

/-- Length of a flattening of constant-length blocks. -/
theorem flatten_const_length {α β : Type} (f : β → List α) (m : Nat) :
    ∀ (l : List β), (∀ x ∈ l, (f x).length = m) →
      ((l.map f).flatten).length = l.length * m := by
  intro l
  induction l with
  | nil => simp
  | cons x l ih =>
      intro h
      simp only [List.map_cons, List.flatten_cons, List.length_append, List.length_cons]
      rw [h x (by simp), ih (fun y hy => h y (by simp [hy]))]
      ring

/-- Claim C2: for every telemetry reply processed by a CONNECTED device's
worker (with well-formed numeric CSV fields), a carried data index less than
or equal to the stored one leaves the device record — in particular its
feedback pair and stored data index — unchanged; a strictly greater one sets
the stored index to it and updates the feedback pair exactly once, and the
application is idempotent (re-processing the same reply is a no-op). -/
theorem C2_telemetry_at_most_once (maxFans : Nat) (sl : Slave) (dIdx : Int)
    (rpmCsv dcCsv : String) (rpms : List Int) (dcs : List Rat)
    (hrpm : parseVector maxFans pyToInt? 0 rpmCsv = some rpms)
    (hdc : parseVector maxFans pyToFloat? 0 dcCsv = some dcs) :
    (dIdx ≤ sl.dataIndex → applyTelemetry maxFans sl dIdx rpmCsv dcCsv = sl) ∧
    (sl.dataIndex < dIdx →
      applyTelemetry maxFans sl dIdx rpmCsv dcCsv
        = { sl with dataIndex := dIdx, misoRPM := rpms, misoDC := dcs } ∧
      applyTelemetry maxFans (applyTelemetry maxFans sl dIdx rpmCsv dcCsv) dIdx rpmCsv dcCsv
        = applyTelemetry maxFans sl dIdx rpmCsv dcCsv) := by
  constructor
  · intro h
    unfold applyTelemetry
    rw [if_neg (by omega)]
  · intro h
    have h1 : applyTelemetry maxFans sl dIdx rpmCsv dcCsv
        = { sl with dataIndex := dIdx, misoRPM := rpms, misoDC := dcs } := by
      unfold applyTelemetry
      rw [if_pos (by omega), hrpm, hdc]
    refine ⟨h1, ?_⟩
    rw [h1]
    unfold applyTelemetry
    rw [if_neg (by simp)]

/-- Witness for C2 at a concrete telemetry reply: data index 9 > stored 7,
so the feedback pair is replaced by the parsed CSVs. -/
theorem C2_telemetry_at_most_once_witness :
    parseVector 2 pyToInt? 0 "100,200" = some [100, 200] ∧
    parseVector 2 pyToFloat? 0 "0,1" = some [(0 : Rat), 1] ∧
    slConn.dataIndex < 9 ∧
    applyTelemetry 2 slConn 9 "100,200" "0,1"
      = { slConn with dataIndex := 9, misoRPM := [100, 200], misoDC := [(0 : Rat), 1] } :=
  ⟨by decide, by decide, by decide,
    ((C2_telemetry_at_most_once 2 slConn 9 "100,200" "0,1" [100, 200] [(0 : Rat), 1]
      (by decide) (by decide)).2 (by decide)).1⟩

/-- Claim C5: the feedback vector emitted by the output publisher equals the
concatenation of every device's latest RPM vector (in registry order)
followed by every device's latest duty-cycle vector (in registry order); on
any registry whose stored feedback vectors have the configured max fan count
as length — true of freshly discovered devices and preserved by every
telemetry application, as the remaining conjuncts state — its length is
2 × (device count × max fan count), independent of the devices' `fans`
fields. -/
theorem C5_feedback_vector_shape (maxFans : Nat) (slaves : List Slave)
    (hinv : ∀ sl ∈ slaves, sl.misoRPM.length = maxFans ∧ sl.misoDC.length = maxFans) :
    outputFeedback slaves
      = (slaves.map (fun sl => sl.misoRPM.map ratOfInt)).flatten
        ++ (slaves.map (fun sl => sl.misoDC)).flatten ∧
    (outputFeedback slaves).length = 2 * (slaves.length * maxFans) ∧
    (∀ cfg st mac misoPort mosiPort ver senderIP chosenName,
      cfg.maxFans = maxFans →
      ∀ sl ∈ (appendNewSlave cfg st mac misoPort mosiPort ver senderIP chosenName).1.slaves,
        sl ∈ st.slaves ∨ (sl.misoRPM.length = maxFans ∧ sl.misoDC.length = maxFans)) ∧
    (∀ (sl : Slave) (dIdx : Int) (rpmCsv dcCsv : String),
      sl.misoRPM.length = maxFans → sl.misoDC.length = maxFans →
      (applyTelemetry maxFans sl dIdx rpmCsv dcCsv).misoRPM.length = maxFans ∧
      (applyTelemetry maxFans sl dIdx rpmCsv dcCsv).misoDC.length = maxFans) := by
  have hshape : outputFeedback slaves
      = (slaves.map (fun sl => sl.misoRPM.map ratOfInt)).flatten
        ++ (slaves.map (fun sl => sl.misoDC)).flatten := by
    unfold outputFeedback
    rw [outputFold_eq]
    simp
  refine ⟨hshape, ?_, ?_, ?_⟩
  · rw [hshape]
    rw [List.length_append]
    rw [flatten_const_length (fun sl => sl.misoRPM.map ratOfInt) maxFans slaves
        (fun sl hsl => by simp [(hinv sl hsl).1])]
    rw [flatten_const_length (fun sl => sl.misoDC) maxFans slaves
        (fun sl hsl => (hinv sl hsl).2)]
    ring
  · intro cfg st mac misoPort mosiPort ver senderIP chosenName hmf sl hsl
    unfold appendNewSlave at hsl
    simp at hsl
    rcases hsl with h | h
    · exact Or.inl h
    · right
      rw [h]
      simp [hmf]
  · intro sl dIdx rpmCsv dcCsv h1 h2
    unfold applyTelemetry
    by_cases hgt : dIdx > sl.dataIndex
    · rw [if_pos hgt]
      cases hr : parseVector maxFans pyToInt? 0 rpmCsv with
      | none => simp [h1, h2]
      | some rs =>
          cases hd : parseVector maxFans pyToFloat? 0 dcCsv with
          | none => simp [h1, h2]
          | some ds =>
              simp [parseVector_length maxFans pyToInt? 0 rpmCsv rs hr,
                parseVector_length maxFans pyToFloat? 0 dcCsv ds hd]
    · rw [if_neg hgt]
      exact ⟨h1, h2⟩

/-- Witness for C5 on the concrete single-device registry `stConn` with max
fan count 2: the emitted vector is the RPM pair followed by the duty-cycle
pair and has length 2 × (1 × 2). -/
theorem C5_feedback_vector_shape_witness :
    (∀ sl ∈ stConn.slaves, sl.misoRPM.length = 2 ∧ sl.misoDC.length = 2) ∧
    (outputFeedback stConn.slaves).length = 2 * (stConn.slaves.length * 2) :=
  ⟨by decide,
    (C5_feedback_vector_shape 2 stConn.slaves (by decide)).2.1⟩

/-- Closed form of one silent cycle (empty mailbox, no reply): the previous
payload is resent, the missed-reply counter increments, and the timeout
ladder runs. -/
theorem connectedCycle_silent (cfg : Config) (w : WorkerState)
    (hflash : ¬(cfg.flashFlag = true ∧ w.slave.version ≠ cfg.targetVersion)) :
    connectedCycle cfg w none none =
      if w.timeouts + 1 = cfg.maxTimeouts - 1 then
        ({ w with
            slave := { w.slave with mosiIndex := w.slave.mosiIndex + 2 }
            timeouts := w.timeouts + 1
            totalTimeouts := w.totalTimeouts + 1 },
         [Effect.sendSlave (w.slave.mosiIndex + 1) w.message,
          Effect.sendSlave (w.slave.mosiIndex + 2) "Q"])
      else if w.timeouts + 1 < cfg.maxTimeouts then
        ({ w with
            slave := { w.slave with mosiIndex := w.slave.mosiIndex + 1 }
            timeouts := w.timeouts + 1
            totalTimeouts := w.totalTimeouts + 1 },
         [Effect.sendSlave (w.slave.mosiIndex + 1) w.message])
      else if w.tryBuffer = true then
        ({ w with
            slave := { w.slave with mosiIndex := w.slave.mosiIndex + 2 }
            timeouts := w.timeouts + 1
            totalTimeouts := w.totalTimeouts + 1
            tryBuffer := false },
         [Effect.sendSlave (w.slave.mosiIndex + 1) w.message,
          Effect.sendSlave (w.slave.mosiIndex + 2) "Y"])
      else
        ({ w with
            slave := { w.slave with mosiIndex := w.slave.mosiIndex + 1, status := SlaveStatus.DISCONNECTED }
            timeouts := 0
            totalTimeouts := 0 },
         [Effect.sendSlave (w.slave.mosiIndex + 1) w.message, Effect.warn,
          sendToListenerMsg cfg w.slave "X", Effect.pushUpdate w.slave.index]) := by
  unfold connectedCycle
  rw [if_neg hflash]
  split_ifs <;> rfl

/-- Characterization of the silent run from a fresh CONNECTED worker state:
after `n ≤ M + 1` consecutive silent cycles (`M` = configured max-timeout
count, at least 2), the worker has counted `n` timeouts and is still in its
pre-disconnect state for `n ≤ M`, the `"Q"` probe has gone out once as soon
as `n ≥ M - 1`, the `"Y"` reconnect probe once as soon as `n ≥ M`, and at
`n = M + 1` the device is DISCONNECTED with exactly one listener-directed
disconnect datagram. -/
theorem runSilent_inv (cfg : Config) (M : Nat) (sl0 : Slave)
    (hM : 2 ≤ M) (hMT : cfg.maxTimeouts = (M : Int))
    (hflash : ¬(cfg.flashFlag = true ∧ sl0.version ≠ cfg.targetVersion)) :
    ∀ n, n ≤ M + 1 → ∃ c : Nat,
      (runSilent cfg (initWorker sl0) n).1 =
        { slave := { sl0 with
              mosiIndex := c
              status := if n = M + 1 then SlaveStatus.DISCONNECTED else sl0.status }
          timeouts := if n = M + 1 then 0 else (n : Int)
          totalTimeouts := if n = M + 1 then 0 else (n : Int)
          tryBuffer := decide (n < M)
          message := "P" } ∧
      listenerSends (runSilent cfg (initWorker sl0) n).2
        = (if n = M + 1 then [sendToListenerMsg cfg sl0 "X"] else []) ∧
      countPayload "Q" (runSilent cfg (initWorker sl0) n).2 = (if M - 1 ≤ n then 1 else 0) ∧
      countPayload "Y" (runSilent cfg (initWorker sl0) n).2 = (if M ≤ n then 1 else 0) := by
  intro n
  induction n with
  | zero =>
      intro _
      refine ⟨sl0.mosiIndex, ?_, ?_, ?_, ?_⟩
      · have h1 : ¬(0 = M + 1) := by omega
        have h2 : decide (0 < M) = true := decide_eq_true (by omega)
        simp [runSilent, initWorker, h1, h2]
      · have h1 : ¬(0 = M + 1) := by omega
        simp [runSilent, listenerSends, h1]
      · have h1 : ¬(M - 1 ≤ 0) := by omega
        simp [runSilent, countPayload, h1]
      · have h1 : ¬(M ≤ 0) := by omega
        simp [runSilent, countPayload, h1]
  | succ n ih =>
      intro hn1
      have hnM : n ≤ M := by omega
      obtain ⟨c, hw, hls, hq, hy⟩ := ih (by omega)
      have hnne : ¬(n = M + 1) := by omega
      simp only [if_neg hnne] at hw hls
      have hcyc := connectedCycle_silent cfg
        { slave := { sl0 with mosiIndex := c }
          timeouts := (n : Int)
          totalTimeouts := (n : Int)
          tryBuffer := decide (n < M)
          message := "P" } (by simpa using hflash)
      rw [hMT] at hcyc
      dsimp only at hcyc
      have hstep : runSilent cfg (initWorker sl0) (n + 1)
          = ((connectedCycle cfg (runSilent cfg (initWorker sl0) n).1 none none).1,
             (runSilent cfg (initWorker sl0) n).2
               ++ (connectedCycle cfg (runSilent cfg (initWorker sl0) n).1 none none).2) := rfl
      rw [hw] at hstep
      rw [hcyc] at hstep
      have hPQ : decide (("P" : String) = "Q") = false := by decide
      have hPY : decide (("P" : String) = "Y") = false := by decide
      have hQQ : decide (("Q" : String) = "Q") = true := by decide
      have hQY : decide (("Q" : String) = "Y") = false := by decide
      have hYQ : decide (("Y" : String) = "Q") = false := by decide
      have hYY : decide (("Y" : String) = "Y") = true := by decide
      by_cases hA : n + 1 = M - 1
      · -- the "Q" probe cycle: timeouts hits M - 1
        rw [if_pos (by omega : ((n : Int)) + 1 = (M : Int) - 1)] at hstep
        rw [hstep]
        have h1 : ¬(n + 1 = M + 1) := by omega
        refine ⟨c + 2, ?_, ?_, ?_, ?_⟩
        · have h2 : decide (n < M) = true := decide_eq_true (by omega)
          have h3 : decide (n + 1 < M) = true := decide_eq_true (by omega)
          simp [h1, h2, h3]
        · simp only [listenerSends, List.filter_append] at hls ⊢
          simp [hls, h1, listenerSends]
        · have hle : M - 1 ≤ n + 1 := by omega
          have h2 : ¬(M - 1 ≤ n) := by omega
          rw [if_neg h2] at hq
          simp only [countPayload, List.filter_append] at hq ⊢
          simp [hq, hle, countPayload, hPQ, hQQ]
        · have h1y : ¬(M ≤ n + 1) := by omega
          have h2 : ¬(M ≤ n) := by omega
          rw [if_neg h2] at hy
          simp only [countPayload, List.filter_append] at hy ⊢
          simp [hy, h1y, countPayload, hPY, hQY]
      · by_cases hB : n + 1 < M
        · -- a plain silent cycle below the limit
          rw [if_neg (by omega : ¬(((n : Int)) + 1 = (M : Int) - 1)),
            if_pos (by omega : ((n : Int)) + 1 < (M : Int))] at hstep
          rw [hstep]
          have h1 : ¬(n + 1 = M + 1) := by omega
          refine ⟨c + 1, ?_, ?_, ?_, ?_⟩
          · have h2 : decide (n < M) = true := decide_eq_true (by omega)
            have h3 : decide (n + 1 < M) = true := decide_eq_true (by omega)
            simp [h1, h2, h3]
          · simp only [listenerSends, List.filter_append] at hls ⊢
            simp [hls, h1, listenerSends]
          · have hle : ¬(M - 1 ≤ n + 1) := by omega
            have h2 : ¬(M - 1 ≤ n) := by omega
            rw [if_neg h2] at hq
            simp only [countPayload, List.filter_append] at hq ⊢
            simp [hq, hle, countPayload, hPQ]
          · have h1y : ¬(M ≤ n + 1) := by omega
            have h2 : ¬(M ≤ n) := by omega
            rw [if_neg h2] at hy
            simp only [countPayload, List.filter_append] at hy ⊢
            simp [hy, h1y, countPayload, hPY]
        · by_cases hC : n + 1 = M
          · -- the "Y" last-chance cycle: timeouts hits M, tryBuffer consumed
            have htb : decide (n < M) = true := decide_eq_true (by omega)
            rw [if_neg (by omega : ¬(((n : Int)) + 1 = (M : Int) - 1)),
              if_neg (by omega : ¬(((n : Int)) + 1 < (M : Int))),
              if_pos (by simp [htb])] at hstep
            rw [hstep]
            have h1 : ¬(n + 1 = M + 1) := by omega
            refine ⟨c + 2, ?_, ?_, ?_, ?_⟩
            · have h3 : decide (n + 1 < M) = false := decide_eq_false (by omega)
              simp [h1, h3]
            · simp only [listenerSends, List.filter_append] at hls ⊢
              simp [hls, h1, listenerSends]
            · have hle : M - 1 ≤ n + 1 := by omega
              have h2 : M - 1 ≤ n := by omega
              rw [if_pos h2] at hq
              simp only [countPayload, List.filter_append] at hq ⊢
              simp [hq, hle, countPayload, hPQ, hYQ]
            · have h1y : M ≤ n + 1 := by omega
              have h2 : ¬(M ≤ n) := by omega
              rw [if_neg h2] at hy
              simp only [countPayload, List.filter_append] at hy ⊢
              simp [hy, h1y, countPayload, hPY, hYY]
          · -- the disconnect cycle: n = M, timeouts passes the limit
            have hD : n = M := by omega
            have htb : decide (n < M) = false := decide_eq_false (by omega)
            rw [if_neg (by omega : ¬(((n : Int)) + 1 = (M : Int) - 1)),
              if_neg (by omega : ¬(((n : Int)) + 1 < (M : Int))),
              if_neg (by simp [htb])] at hstep
            rw [hstep]
            have h1 : n + 1 = M + 1 := by omega
            refine ⟨c + 1, ?_, ?_, ?_, ?_⟩
            · have h3 : decide (n + 1 < M) = false := decide_eq_false (by omega)
              simp [h1, h3, htb]
            · simp only [listenerSends, List.filter_append] at hls ⊢
              rw [hls]
              cases hip : sl0.ip <;>
                simp [h1, listenerSends, sendToListenerMsg, hip]
            · have hle : M - 1 ≤ n + 1 := by omega
              have h2 : M - 1 ≤ n := by omega
              rw [if_pos h2] at hq
              simp only [countPayload, List.filter_append] at hq ⊢
              cases hip : sl0.ip <;>
                simp [hq, hle, countPayload, hPQ, sendToListenerMsg, hip]
            · have h1y : M ≤ n + 1 := by omega
              have h2 : M ≤ n := by omega
              rw [if_pos h2] at hy
              simp only [countPayload, List.filter_append] at hy ⊢
              cases hip : sl0.ip <;>
                simp [hy, h1y, countPayload, hPY, sendToListenerMsg, hip]

/-- Claim C3 counterexample: with max-timeout count 2, a CONNECTED device
that receives no reply for exactly 2 consecutive cycles is still CONNECTED
(the cycle at the limit only sends the last-chance "Y" probe) and no
disconnect directive has been sent; the claimed transition after exactly
the max-timeout count of silent cycles does not happen. -/
theorem C3_counterexample_still_connected_at_limit :
    cfgC3.maxTimeouts = 2 ∧
    (runSilent cfgC3 (initWorker slConn) 2).1.slave.status = SlaveStatus.CONNECTED ∧
    listenerSends (runSilent cfgC3 (initWorker slConn) 2).2 = [] :=
  ⟨by decide, by decide, by decide⟩

/-- Claim C3 (amended): for every CONNECTED device that, starting from a
missed-reply counter of zero, receives no reply for consecutive cycles
(max-timeout count `M ≥ 2`): through the first `M` silent cycles the device
stays CONNECTED and no disconnect directive is sent; on cycle `M - 1` (one
before the limit) the low-cost probe `"Q"` goes out once, on cycle `M` (at
the limit) the last-chance reconnect probe `"Y"` goes out once; and on cycle
`M + 1` — one past the limit, not at it as the original claim states — the
worker transitions the device to DISCONNECTED having sent exactly one
disconnect directive to its listener. -/
theorem C3_amended_disconnect_after_limit_plus_one
    (cfg : Config) (M : Nat) (sl0 : Slave)
    (hM : 2 ≤ M) (hMT : cfg.maxTimeouts = (M : Int))
    (hconn : sl0.status = SlaveStatus.CONNECTED)
    (hflash : ¬(cfg.flashFlag = true ∧ sl0.version ≠ cfg.targetVersion)) :
    (∀ k, k ≤ M →
      (runSilent cfg (initWorker sl0) k).1.slave.status = SlaveStatus.CONNECTED ∧
      listenerSends (runSilent cfg (initWorker sl0) k).2 = []) ∧
    (runSilent cfg (initWorker sl0) (M + 1)).1.slave.status = SlaveStatus.DISCONNECTED ∧
    listenerSends (runSilent cfg (initWorker sl0) (M + 1)).2
      = [sendToListenerMsg cfg sl0 "X"] ∧
    (∀ k, k ≤ M + 1 →
      countPayload "Q" (runSilent cfg (initWorker sl0) k).2 = (if M - 1 ≤ k then 1 else 0) ∧
      countPayload "Y" (runSilent cfg (initWorker sl0) k).2 = (if M ≤ k then 1 else 0)) := by
  have hinv := runSilent_inv cfg M sl0 hM hMT hflash
  refine ⟨?_, ?_, ?_, ?_⟩
  · intro k hk
    obtain ⟨c, hw, hls, _, _⟩ := hinv k (by omega)
    have hkne : ¬(k = M + 1) := by omega
    simp only [if_neg hkne] at hw hls
    rw [hw]
    exact ⟨by simp [hconn], hls⟩
  · obtain ⟨c, hw, _, _, _⟩ := hinv (M + 1) (by omega)
    rw [hw]
    simp
  · obtain ⟨c, _, hls, _, _⟩ := hinv (M + 1) (by omega)
    simpa using hls
  · intro k hk
    obtain ⟨c, _, _, hq, hy⟩ := hinv k hk
    exact ⟨hq, hy⟩

/-- Witness for the amended C3 at max-timeout count 2: after 3 silent cycles
the concrete device is DISCONNECTED. -/
theorem C3_amended_disconnect_after_limit_plus_one_witness :
    (2 : Nat) ≤ 2 ∧
    (runSilent cfgC3 (initWorker slConn) 3).1.slave.status = SlaveStatus.DISCONNECTED :=
  ⟨by decide,
    (C3_amended_disconnect_after_limit_plus_one cfgC3 2 slConn (by decide) (by decide)
      (by decide) (by decide)).2.1⟩

/-- With every receive timing out, `t` remaining tries are consumed one per
timeout and the timeout after that disconnects, whatever `rest` would have
followed. -/
theorem hskLoop_allNone (t : Nat) :
    ∀ rest : List (Option String),
      (hskLoop t 0 (List.replicate t none ++ (none :: rest))).1 = HskOutcome.disconnected ∧
      countHskEffect HskEffect.sendHSK
        (hskLoop t 0 (List.replicate t none ++ (none :: rest))).2 = t ∧
      countHskEffect HskEffect.sendX
        (hskLoop t 0 (List.replicate t none ++ (none :: rest))).2 = 1 ∧
      countHskEffect HskEffect.statusDisconnected
        (hskLoop t 0 (List.replicate t none ++ (none :: rest))).2 = 1 := by
  induction t with
  | zero =>
      intro rest
      simp [hskLoop, countHskEffect]
  | succ t ih =>
      intro rest
      have hrep : List.replicate (t + 1) (none : Option String) ++ (none :: rest)
          = none :: (List.replicate t none ++ (none :: rest)) := by
        simp [List.replicate_succ]
      rw [hrep]
      obtain ⟨h1, h2, h3, h4⟩ := ih rest
      simp [hskLoop, countHskEffect] at h1 h2 h3 h4 ⊢
      exact ⟨h1, h2, h3, h4⟩

/-- With at most as many timeouts as remaining tries, the loop is still
going when input runs out (no disconnect yet). -/
theorem hskLoop_short (k : Nat) :
    ∀ t : Nat, k ≤ t →
      (hskLoop t 0 (List.replicate k none)).1 = HskOutcome.outOfInput := by
  induction k with
  | zero => intro t _; simp [hskLoop]
  | succ k ih =>
      intro t hk
      have ht : 0 < t := by omega
      simp [List.replicate_succ, hskLoop, ht]
      exact ih (t - 1) (by omega)

/-- Claim C4: for every KNOWN device whose handshake attempts all go
unanswered, the handshake phase terminates after exactly the retry budget of
descriptor sends — the initial send plus `HSK_TRIES` retries, whatever input
would follow — at which point it sends exactly one explicit disconnect
directive and sets the device's status to DISCONNECTED; before the budget is
exhausted it never disconnects (with at most `HSK_TRIES` timeouts the loop
is still going); and an acknowledgment-pending reply `"K"` does not consume
a retry attempt (the loop state is exactly as if the `"K"` had not been
received). -/
theorem C4_handshake_retry_budget (rest : List (Option String)) (k : Nat)
    (hk : k ≤ HSK_TRIES) :
    (hskPhase (List.replicate (HSK_TRIES + 1) none ++ rest)).1
      = HskOutcome.disconnected ∧
    countHskEffect HskEffect.sendHSK
      (hskPhase (List.replicate (HSK_TRIES + 1) none ++ rest)).2 = 1 + HSK_TRIES ∧
    countHskEffect HskEffect.sendX
      (hskPhase (List.replicate (HSK_TRIES + 1) none ++ rest)).2 = 1 ∧
    countHskEffect HskEffect.statusDisconnected
      (hskPhase (List.replicate (HSK_TRIES + 1) none ++ rest)).2 = 1 ∧
    (hskPhase (List.replicate k none)).1 = HskOutcome.outOfInput ∧
    (∀ (tries fh : Nat) (rs : List (Option String)),
      hskLoop tries fh (some "K" :: rs) = hskLoop tries fh rs) := by
  have hrep : List.replicate (HSK_TRIES + 1) (none : Option String) ++ rest
      = List.replicate HSK_TRIES none ++ (none :: rest) := by
    simp [List.replicate_succ']
  obtain ⟨h1, h2, h3, h4⟩ := hskLoop_allNone HSK_TRIES rest
  refine ⟨?_, ?_, ?_, ?_, ?_, ?_⟩
  · simpa [hskPhase, hrep] using h1
  · simp only [hskPhase, hrep]
    simp [countHskEffect] at h2 ⊢
    omega
  · simp only [hskPhase, hrep]
    simp [countHskEffect] at h3 ⊢
    simpa using h3
  · simp only [hskPhase, hrep]
    simp [countHskEffect] at h4 ⊢
    simpa using h4
  · simpa [hskPhase] using hskLoop_short k HSK_TRIES hk
  · intro tries fh rs
    simp [hskLoop]

/-- Witness for C4: three timeouts in a row (initial send plus two retries)
end the handshake phase with a disconnect. -/
theorem C4_handshake_retry_budget_witness :
    (2 : Nat) ≤ HSK_TRIES ∧
    (hskPhase (List.replicate (HSK_TRIES + 1) none ++ [])).1 = HskOutcome.disconnected :=
  ⟨by decide, (C4_handshake_retry_budget [] 2 (by decide)).1⟩

/-- Every entry produced by the dispatch loop is at a position at or past
the starting registry position. -/
theorem dcDispatch_indices (maxFans : Nat) (C : List Rat) :
    ∀ (slaves : List Slave) (i index : Nat) (p : Nat × List Rat),
      p ∈ dcDispatch maxFans C slaves i index → index ≤ p.1 := by
  intro slaves
  induction slaves with
  | nil => intro i index p hp; simp [dcDispatch] at hp
  | cons sl rest ih =>
      intro i index p hp
      unfold dcDispatch at hp
      by_cases hi : i < C.length
      · rw [if_pos hi] at hp
        rcases List.mem_append.mp hp with h | h
        · by_cases hc : sl.status = SlaveStatus.CONNECTED
          · rw [if_pos hc] at h
            rw [List.mem_singleton] at h
            subst h
            simp
          · rw [if_neg hc] at h
            simp at h
        · have := ih (i + sl.fans) (index + 1) p h
          omega
      · rw [if_neg hi] at hp
        simp at hp

/-- The dispatch entry for the CONNECTED device at position `index + k` of
the remaining registry: its slice starts at `i + prefixFans slaves k`. -/
theorem dcDispatch_spec (maxFans : Nat) (C : List Rat) :
    ∀ (slaves : List Slave) (i index k : Nat) (sl : Slave),
      slaves[k]? = some sl → sl.status = SlaveStatus.CONNECTED → 0 < sl.fans →
      i + prefixFans slaves k + sl.fans ≤ C.length →
      (dcDispatch maxFans C slaves i index).filter (fun p => decide (p.1 = index + k))
        = [(index + k,
            ((C.drop (i + prefixFans slaves k)).take sl.fans)
              ++ List.replicate (maxFans - sl.fans) 0)] := by
  intro slaves
  induction slaves with
  | nil => intro i index k sl hk; simp at hk
  | cons s rest ih =>
      intro i index k sl hk hc hf hlen
      cases k with
      | zero =>
          have hs : sl = s := by
            have := hk
            simp at this
            exact this.symm
          subst hs
          have hpf : prefixFans (sl :: rest) 0 = 0 := by simp [prefixFans]
          rw [hpf] at hlen
          have hi : i < C.length := by omega
          have hslice : ((C.drop (i + prefixFans (sl :: rest) 0)).take sl.fans)
              = ((C.drop i).take sl.fans) := by rw [hpf]; simp
          have htake : ((C.drop i).take sl.fans).length = sl.fans := by
            simp [List.length_take, List.length_drop]
            omega
          unfold dcDispatch
          rw [if_pos hi, if_pos hc]
          rw [List.filter_append]
          have hrest : (dcDispatch maxFans C rest (i + sl.fans) (index + 1)).filter
              (fun p => decide (p.1 = index + 0)) = [] := by
            rw [List.filter_eq_nil_iff]
            intro p hp
            have := dcDispatch_indices maxFans C rest (i + sl.fans) (index + 1) p hp
            simp
            omega
          rw [hrest]
          simp [hslice, htake]
      | succ k =>
          have hk2 : rest[k]? = some sl := by simpa using hk
          have hpf : prefixFans (s :: rest) (k + 1) = s.fans + prefixFans rest k := by
            simp [prefixFans]
          rw [hpf] at hlen
          have hi : i < C.length := by omega
          have hlen2 : (i + s.fans) + prefixFans rest k + sl.fans ≤ C.length := by omega
          have hrec := ih (i + s.fans) (index + 1) k sl hk2 hc hf hlen2
          unfold dcDispatch
          rw [if_pos hi]
          rw [List.filter_append]
          have hhead : (if s.status = SlaveStatus.CONNECTED then
              [(index, ((C.drop i).take s.fans)
                ++ List.replicate (maxFans - ((C.drop i).take s.fans).length) 0)]
             else []).filter (fun p => decide (p.1 = index + (k + 1))) = [] := by
            by_cases hcs : s.status = SlaveStatus.CONNECTED
            · rw [if_pos hcs]
              simp
            · rw [if_neg hcs]
              rfl
          rw [hhead]
          rw [show index + (k + 1) = (index + 1) + k by omega]
          rw [hrec]
          rw [hpf]
          rw [show i + (s.fans + prefixFans rest k) = i + s.fans + prefixFans rest k by omega]
          simp

/-- Claim C9: in full-vector duty-cycle dispatch, the CONNECTED device at
registry position `k` (with at least one fan, and the control vector long
enough to cover it) is sent exactly one message, whose duty-cycle values are
exactly the contiguous slice of the control vector beginning at the data
offset plus the sum of the actual fan counts of the devices at positions
`0 .. k-1`, of length equal to that device's actual fan count, zero-padded
to the configured max fan count — the read cursor advances by each device's
actual fan count, keeping data aligned across devices with heterogeneous
fan counts. -/
theorem C9_dc_vector_alignment (maxFans : Nat) (slaves : List Slave) (C : List Rat)
    (dcOffset k : Nat) (sl : Slave)
    (hk : slaves[k]? = some sl) (hc : sl.status = SlaveStatus.CONNECTED)
    (hf : 0 < sl.fans)
    (hlen : dcOffset + prefixFans slaves k + sl.fans ≤ C.length) :
    (handleDCVector maxFans slaves C dcOffset).filter (fun p => decide (p.1 = k))
      = [(k, ((C.drop (dcOffset + prefixFans slaves k)).take sl.fans)
            ++ List.replicate (maxFans - sl.fans) 0)] ∧
    ((C.drop (dcOffset + prefixFans slaves k)).take sl.fans).length = sl.fans := by
  have h := dcDispatch_spec maxFans C slaves dcOffset 0 k sl hk hc hf hlen
  constructor
  · simpa [handleDCVector] using h
  · simp [List.length_take, List.length_drop]
    omega

/-- Witness for C9: two CONNECTED devices with 2 and 1 fans, max fan count
3, control vector of five entries with data offset 1: device 1's slice
starts right after device 0's two values. -/
theorem C9_dc_vector_alignment_witness :
    stHet.slaves[1]? = some slHet1 ∧
    (handleDCVector 3 stHet.slaves [9, 10, 20, 30, 40] 1).filter
        (fun p => decide (p.1 = 1))
      = [(1, [(30 : Rat), 0, 0])] :=
  ⟨by decide,
    by
      have h := (C9_dc_vector_alignment 3 stHet.slaves [9, 10, 20, 30, 40] 1 1 slHet1
        (by decide) (by decide) (by decide) (by decide)).1
      simpa using h⟩

end FanClub
